import Mathlib

/-!
Shallow embedding of `libsql-server/sqld/src/query_analysis.rs` and proofs of
the specification claims about it.

The AST types (`QualifiedName`, `PragmaBody`, `Stmt`, `Cmd`) come from the
external crate `sqlite3_parser`; they are embedded here only to the
granularity that `query_analysis.rs` actually inspects (the `Name` newtype is
collapsed to `String`, since the code only ever reads `name.0.as_str()`, and
payload fields that the module never touches are elided).  Everything in the
`QueryAnalysis` namespace below that carries a source name (`is_temp`,
`StmtKind.kind`, `StmtKind.pragma_kind`, `State.step`, `State.reset`,
`Statement.empty`, `Statement.parse_inner`, `Statement.parse`,
`Statement.is_read_only`, `predict_final_state`) is a direct translation of
the function of the same name in the Rust source; Rust's in-place mutation of
`State` becomes explicit state passing.
-/

namespace QueryAnalysis

/-- Embedding of `sqlite3_parser::ast::QualifiedName` restricted to the two
fields the analysed module reads: the optional database qualifier and the
object name.  The `Name` newtype is collapsed to `String`. -/
structure QualifiedName where
  db_name : Option String
  name : String
deriving DecidableEq, Repr

/-- Embedding of `sqlite3_parser::ast::PragmaBody` (`Equals(Expr)` or
`Call(Expr)`).  The expression payload is never inspected by the analysed
module (only `body.as_ref()` presence is tested), so it is modelled as its
raw text. -/
inductive PragmaBody where
  | Equals (e : String)
  | Call (e : String)
deriving DecidableEq, Repr

/-- Embedding of the subset of `sqlite3_parser::ast::Stmt` distinguished by
`StmtKind::kind`.  Constructors keep exactly the fields that the module
pattern-matches on (`tbl_name`, `temporary`, pragma name and body); every
remaining `Stmt` variant (VACUUM, ATTACH, CREATE VIEW, savepoints, ...) is
collapsed into `OtherStmt`, which the Rust wildcard arm `_ => None` covers. -/
inductive Stmt where
  | Begin
  | Commit
  | Rollback
  | CreateVirtualTable (tbl_name : QualifiedName)
  | CreateTable (tbl_name : QualifiedName) (temporary : Bool)
  | Insert
  | Update
  | Delete
  | DropTable
  | AlterTable
  | CreateTrigger (temporary : Bool) (trigger_name : QualifiedName)
  | CreateIndex
  | Select
  | Pragma (name : QualifiedName) (body : Option PragmaBody)
  | OtherStmt
deriving DecidableEq, Repr

/-- Embedding of `sqlite3_parser::ast::Cmd`. -/
inductive Cmd where
  | Explain (s : Stmt)
  | ExplainQueryPlan (s : Stmt)
  | Stmt (s : Stmt)
deriving DecidableEq, Repr

/-- Model of the external `Display` implementation for `Cmd` from the
`sqlite3_parser` crate (the `c.to_string()` re-serialization used by
`parse_inner`).  That rendering is external-collaborator code, not part of
this repository, and none of the properties proved below depend on its
output; it is modelled as a fixed rendering per command shape. -/
def Cmd.toString : Cmd → String
  | .Explain _ => "EXPLAIN"
  | .ExplainQueryPlan _ => "EXPLAIN QUERY PLAN"
  | .Stmt .Begin => "BEGIN"
  | .Stmt .Commit => "COMMIT"
  | .Stmt .Rollback => "ROLLBACK"
  | .Stmt (.CreateVirtualTable n) => "CREATE VIRTUAL TABLE " ++ n.name
  | .Stmt (.CreateTable n _) => "CREATE TABLE " ++ n.name
  | .Stmt .Insert => "INSERT"
  | .Stmt .Update => "UPDATE"
  | .Stmt .Delete => "DELETE"
  | .Stmt .DropTable => "DROP TABLE"
  | .Stmt .AlterTable => "ALTER TABLE"
  | .Stmt (.CreateTrigger _ n) => "CREATE TRIGGER " ++ n.name
  | .Stmt .CreateIndex => "CREATE INDEX"
  | .Stmt .Select => "SELECT"
  | .Stmt (.Pragma n _) => "PRAGMA " ++ n.name
  | .Stmt .OtherStmt => "<other>"

/-- Direct translation of `StmtKind` (`query_analysis.rs` lines 23-32): the
routing category of a statement. -/
inductive StmtKind where
  | TxnBegin
  | TxnEnd
  | Read
  | Write
  | Other
deriving DecidableEq, Repr

/-- Direct translation of `fn is_temp` (lines 34-36):
`name.db_name.as_ref().map(|n| n.0.as_str()) == Some("TEMP")`. -/
def is_temp (name : QualifiedName) : Bool :=
  name.db_name == some "TEMP"

/-- Direct translation of `StmtKind::pragma_kind` (lines 70-134).  The Rust
function is a single `match` on the pragma's name string; the grouped string
literal alternatives below mirror the four tiers of that match arm for arm,
and the trailing wildcard (with its `tracing::debug!` side effect dropped)
returns `none`. -/
def StmtKind.pragma_kind (name : QualifiedName) (body : Option PragmaBody) : Option StmtKind :=
  match name.name with
  | "table_list" | "index_list" | "table_info" | "table_xinfo" | "index_xinfo"
  | "pragma_list" | "compile_options" | "database_list" | "function_list"
  | "module_list" => some .Read
  | "encoding" => some .Read
  | "foreign_key" | "foreign_key_list" | "foreign_key_check" | "collation_list"
  | "data_version" | "freelist_count" | "integrity_check" | "legacy_file_format"
  | "page_count" | "quick_check" | "stats" => some .Write
  | "analysis_limit"
  | "application_id"
  | "auto_vacuum"
  | "automatic_index"
  | "busy_timeout"
  | "cache_size"
  | "cache_spill"
  | "cell_size_check"
  | "checkpoint_fullfsync"
  | "defer_foreign_keys"
  | "fullfsync"
  | "hard_heap_limit"
  | "journal_mode"
  | "journal_size_limit"
  | "legacy_alter_table"
  | "locking_mode"
  | "max_page_count"
  | "mmap_size"
  | "page_size"
  | "query_only"
  | "read_uncommitted"
  | "recursive_triggers"
  | "reverse_unordered_selects"
  | "schema_version"
  | "secure_delete"
  | "soft_heap_limit"
  | "synchronous"
  | "temp_store"
  | "threads"
  | "trusted_schema"
  | "user_version"
  | "wal_autocheckpoint" =>
      match body with
      | some _ => none
      | none => some .Write
  | "case_sensitive_like" | "ignore_check_constraints" | "incremental_vacuum"
  | "optimize"
  | "parser_trace"
  | "shrink_memory"
  | "wal_checkpoint" => none
  | _ => none

/-- Direct translation of `StmtKind::kind` (lines 39-68).  The Rust arm
`Cmd::Stmt(Stmt::CreateVirtualTable { tbl_name, .. } | Stmt::CreateTable
\x7b tbl_name, temporary: false, .. \x7d) if !is_temp(tbl_name)` guards BOTH
alternatives of the or-pattern; when the pattern or guard fails, no later
arm matches those variants, so control reaches the wildcard `_ => None` —
hence the explicit `if ... then ... else none` branches below.  Likewise a
`CreateTrigger` with `temporary: true` skips its arm and falls to the
wildcard. -/
def StmtKind.kind : Cmd → Option StmtKind
  | .Explain _ => some .Other
  | .ExplainQueryPlan _ => some .Other
  | .Stmt .Begin => some .TxnBegin
  | .Stmt .Commit | .Stmt .Rollback => some .TxnEnd
  | .Stmt (.CreateVirtualTable tbl_name) =>
      if is_temp tbl_name then none else some .Write
  | .Stmt (.CreateTable tbl_name temporary) =>
      if temporary = false ∧ is_temp tbl_name = false then some .Write else none
  | .Stmt .Insert | .Stmt .Update | .Stmt .Delete | .Stmt .DropTable
  | .Stmt .AlterTable | .Stmt .CreateIndex => some .Write
  | .Stmt (.CreateTrigger temporary _) =>
      if temporary = false then some .Write else none
  | .Stmt .Select => some .Read
  | .Stmt (.Pragma name body) => StmtKind.pragma_kind name body
  | .Stmt .OtherStmt => none

/-- Direct translation of `State` (lines 138-146): the transaction state of a
series of statements.  `Txn` is the state the spec calls `InTxn`. -/
inductive State where
  | Txn
  | Init
  | Invalid
deriving DecidableEq, Repr

/-- Direct translation of `State::step` (lines 148-157); the Rust method
mutates `self`, embedded here as a pure function returning the next state.
The match arms appear in source order (arm three, `(state, Other | Write |
Read) => state`, captures `Invalid` before arm four does, exactly as in
Rust). -/
def State.step (s : State) (kind : StmtKind) : State :=
  match s, kind with
  | .Txn, .TxnBegin | .Init, .TxnEnd => .Invalid
  | .Txn, .TxnEnd => .Init
  | s, .Other | s, .Write | s, .Read => s
  | .Invalid, _ => .Invalid
  | .Init, .TxnBegin => .Txn

/-- Direct translation of `State::reset` (lines 159-161). -/
def State.reset (_ : State) : State := .Init

/-- Direct translation of `struct Statement` (lines 7-14). -/
structure Statement where
  stmt : String
  kind : StmtKind
  is_iud : Bool
  is_insert : Bool
deriving DecidableEq, Repr

/-- Direct translation of `Statement::empty` (lines 165-173). -/
def Statement.empty : Statement :=
  { stmt := ""
    kind := .Read
    is_iud := false
    is_insert := false }

/-- Direct translation of the expression `matches!(c, Cmd::Stmt(Stmt::Insert
\x7b..\x7d | Stmt::Update \x7b..\x7d | Stmt::Delete \x7b..\x7d))` computing
`is_iud` in `parse_inner` (lines 190-193). -/
def is_iud_cmd : Cmd → Bool
  | .Stmt .Insert | .Stmt .Update | .Stmt .Delete => true
  | _ => false

/-- Direct translation of the expression `matches!(c, Cmd::Stmt(Stmt::Insert
\x7b..\x7d))` computing `is_insert` in `parse_inner` (line 194). -/
def is_insert_cmd : Cmd → Bool
  | .Stmt .Insert => true
  | _ => false

/-- Direct translation of the `if let Cmd::Stmt(Stmt::CreateVirtualTable
\x7b..\x7d) = &c` test in `parse_inner` (line 181). -/
def is_cvt_cmd : Cmd → Bool
  | .Stmt (.CreateVirtualTable _) => true
  | _ => false

/-- Direct translation of the nested `fn parse_inner(original, c)` inside
`Statement::parse` (lines 176-202): classify, special-case CREATE VIRTUAL
TABLE to keep `original` as the text, otherwise re-serialize the command and
compute the `matches!` flags.  `anyhow::Result` becomes `Except String`. -/
def Statement.parse_inner (original : String) (c : Cmd) : Except String Statement :=
  match StmtKind.kind c with
  | none => .error "unsupported statement"
  | some kind =>
      if is_cvt_cmd c then
        .ok { stmt := original
              kind := kind
              is_iud := false
              is_insert := false }
      else
        .ok { stmt := Cmd.toString c
              kind := kind
              is_iud := is_iud_cmd c
              is_insert := is_insert_cmd c }

/-- Outcome of one `parser.next()` call on the external `sqlite3_parser`
Command Source: a parsed command, a located syntax error, or another lexer
error.  The parser is an external collaborator, so `Statement::parse` is
embedded relative to the finite sequence of such outcomes the parser yields
for the input (the terminating `Ok(None)` is the end of the list). -/
inductive ParserItem where
  | cmd (c : Cmd)
  | syntaxError (found : String) (line : Nat) (col : Nat)
  | otherError (msg : String)
deriving DecidableEq, Repr

/-- Direct translation of the `std::iter::from_fn` closure of
`Statement::parse` (lines 208-222), parametrised by the sequence of outcomes
the boxed external parser produces for the input `s`: each `Ok(Some(cmd))`
is fed to `parse_inner(s, cmd)` — note the WHOLE input `s` is passed as
`original` — and each error is rendered in place. -/
def Statement.parse (s : String) (items : List ParserItem) : List (Except String Statement) :=
  items.map fun
    | .cmd c => Statement.parse_inner s c
    | .syntaxError found line col =>
        .error ("syntax error around L" ++ ToString.toString line ++ ":"
          ++ ToString.toString col ++ ": `" ++ found ++ "`")
    | .otherError msg => .error msg

/-- Direct translation of `Statement::is_read_only` (lines 225-230). -/
def Statement.is_read_only (s : Statement) : Bool :=
  match s.kind with
  | .Read | .TxnEnd | .TxnBegin => true
  | _ => false

/-- Direct translation of `predict_final_state` (lines 235-243): a left fold
of `State::step` over the statements' kinds. -/
def predict_final_state (state : State) (stmts : List Statement) : State :=
  stmts.foldl (fun st stmt => st.step stmt.kind) state

/-- Helper: every category leaves `Invalid` at `Invalid` (arms three and four
of `State::step`). -/
theorem step_invalid (k : StmtKind) : State.step .Invalid k = .Invalid := by
  cases k <;> rfl

/-- Claim C1: a single `State::step` follows exactly the spec's transition table:
Init+TxnBegin ↦ Txn (the spec's InTxn), Txn+TxnEnd ↦ Init, Txn+TxnBegin ↦
Invalid, Init+TxnEnd ↦ Invalid, Read/Write/Other leave every state
unchanged, and Invalid maps to Invalid on every category. -/
theorem c1_step_follows_transition_table :
    State.step .Init .TxnBegin = .Txn ∧
    State.step .Txn .TxnEnd = .Init ∧
    State.step .Txn .TxnBegin = .Invalid ∧
    State.step .Init .TxnEnd = .Invalid ∧
    (∀ s : State,
      State.step s .Read = s ∧ State.step s .Write = s ∧ State.step s .Other = s) ∧
    (∀ k : StmtKind, State.step .Invalid k = .Invalid) := by
  refine ⟨rfl, rfl, rfl, rfl, ?_, ?_⟩
  · intro s; cases s <;> exact ⟨rfl, rfl, rfl⟩
  · intro k; cases k <;> rfl

/-- Claim C8: `Invalid` is absorbing — folding `State::step` (as
`predict_final_state` does) from `Invalid` over any sequence of statements
yields `Invalid`. -/
theorem c8_invalid_is_absorbing (stmts : List Statement) :
    predict_final_state .Invalid stmts = .Invalid := by
  induction stmts with
  | nil => rfl
  | cons st rest ih =>
      simpa [predict_final_state, step_invalid] using ih

/-- Claim C9: `predict_final_state` is a pure left fold of `State::step` over the
statements' categories, so it splits over concatenation:
`predict_final_state s (A ++ B) = predict_final_state (predict_final_state
s A) B` for every state and every pair of sequences. -/
theorem c9_predict_final_state_append (s : State) (A B : List Statement) :
    predict_final_state s (A ++ B)
      = predict_final_state (predict_final_state s A) B := by
  simp [predict_final_state, List.foldl_append]

/-- Claim C2 counterexample: the claim "every CREATE VIRTUAL TABLE classifies as
`Write`, regardless of TEMP qualification of its target" is false on the
code: the Rust guard `if !is_temp(tbl_name)` covers the CreateVirtualTable
alternative of the or-pattern too, so `CREATE VIRTUAL TABLE TEMP.x ...`
matches no arm and `StmtKind::kind` returns `None` (unsupported), not
`Write`. -/
theorem c2_counterexample :
    StmtKind.kind (Cmd.Stmt (Stmt.CreateVirtualTable ⟨some "TEMP", "x"⟩))
      ≠ some StmtKind.Write ∧
    StmtKind.kind (Cmd.Stmt (Stmt.CreateVirtualTable ⟨some "TEMP", "x"⟩)) = none := by
  exact ⟨by decide, rfl⟩

/-- Claim C2 amended: a CREATE VIRTUAL TABLE whose target is NOT qualified with
the database name `TEMP` classifies as `Write`; one whose target IS
TEMP-qualified is unsupported (no category). -/
theorem c2_amended_cvt_write_unless_temp_qualified (tbl : QualifiedName) :
    (is_temp tbl = false →
      StmtKind.kind (Cmd.Stmt (Stmt.CreateVirtualTable tbl)) = some StmtKind.Write) ∧
    (is_temp tbl = true →
      StmtKind.kind (Cmd.Stmt (Stmt.CreateVirtualTable tbl)) = none) := by
  constructor <;> intro h <;> simp [StmtKind.kind, h]

/-- Claim C2 amended, witness: instantiated at the unqualified name `x` and at the
TEMP-qualified name `TEMP.x`. -/
theorem c2_amended_witness :
    StmtKind.kind (Cmd.Stmt (Stmt.CreateVirtualTable ⟨none, "x"⟩))
      = some StmtKind.Write ∧
    StmtKind.kind (Cmd.Stmt (Stmt.CreateVirtualTable ⟨some "TEMP", "x"⟩)) = none :=
  ⟨(c2_amended_cvt_write_unless_temp_qualified ⟨none, "x"⟩).1 rfl,
   (c2_amended_cvt_write_unless_temp_qualified ⟨some "TEMP", "x"⟩).2 rfl⟩

/-- Claim C6 counterexample: the claim "a CREATE TRIGGER whose target is qualified
with the database name TEMP is treated as temporary and is not classified
`Write`" is false on the code: `StmtKind::kind` checks only the
`temporary: false` field for CreateTrigger and never applies `is_temp` to
the trigger's name, so a trigger on the TEMP-qualified target `TEMP.t` with
`temporary: false` still classifies as `Write`. -/
theorem c6_counterexample :
    is_temp ⟨some "TEMP", "t"⟩ = true ∧
    StmtKind.kind (Cmd.Stmt (Stmt.CreateTrigger false ⟨some "TEMP", "t"⟩))
      = some StmtKind.Write :=
  ⟨rfl, rfl⟩

/-- Claim C6 amended: for CREATE TRIGGER the classifier looks only at the
`temporary` flag and ignores the target's database qualifier entirely: with
`temporary = false` it is `Write` for every target name (TEMP-qualified or
not), and with `temporary = true` it is unsupported (no category). -/
theorem c6_amended_trigger_ignores_qualifier (nm : QualifiedName) :
    StmtKind.kind (Cmd.Stmt (Stmt.CreateTrigger false nm)) = some StmtKind.Write ∧
    StmtKind.kind (Cmd.Stmt (Stmt.CreateTrigger true nm)) = none :=
  ⟨rfl, rfl⟩

set_option maxHeartbeats 1000000 in
/-- Claim C10: `StmtKind::pragma_kind` only ever classifies a PRAGMA as `Read` or
`Write` (never `TxnBegin`, `TxnEnd` or `Other`), and both of those
categories are identities of `State::step`, so no PRAGMA statement can
change the predicted transaction state. -/
theorem c10_pragma_never_changes_state
    (qn : QualifiedName) (body : Option PragmaBody) (s : State) (k : StmtKind)
    (h : StmtKind.kind (Cmd.Stmt (Stmt.Pragma qn body)) = some k) :
    (k = StmtKind.Read ∨ k = StmtKind.Write) ∧ State.step s k = s := by
  have hk : k = StmtKind.Read ∨ k = StmtKind.Write := by
    simp only [StmtKind.kind] at h
    unfold StmtKind.pragma_kind at h
    split at h <;> (try split at h) <;>
      first
        | exact Option.noConfusion h
        | exact Or.inl (Option.some.inj h).symm
        | exact Or.inr (Option.some.inj h).symm
  have hs : State.step s k = s := by
    rcases hk with rfl | rfl <;> cases s <;> rfl
  exact ⟨hk, hs⟩

/-- Claim C10 witness: instantiated at `PRAGMA table_list` (category `Read`) in
state `Init`. -/
theorem c10_witness :
    (StmtKind.Read = StmtKind.Read ∨ StmtKind.Read = StmtKind.Write) ∧
    State.step State.Init StmtKind.Read = State.Init :=
  c10_pragma_never_changes_state ⟨none, "table_list"⟩ none State.Init StmtKind.Read rfl

/-- List of the "ok to be served by primary without args" pragma names, tier
three of `StmtKind::pragma_kind` (`query_analysis.rs` lines 85-116), in
source order: the connection/engine configuration set. -/
def configPragmas : List String :=
  ["analysis_limit", "application_id", "auto_vacuum", "automatic_index",
   "busy_timeout", "cache_size", "cache_spill", "cell_size_check",
   "checkpoint_fullfsync", "defer_foreign_keys", "fullfsync",
   "hard_heap_limit", "journal_mode", "journal_size_limit",
   "legacy_alter_table", "locking_mode", "max_page_count", "mmap_size",
   "page_size", "query_only", "read_uncommitted", "recursive_triggers",
   "reverse_unordered_selects", "schema_version", "secure_delete",
   "soft_heap_limit", "synchronous", "temp_store", "threads",
   "trusted_schema", "user_version", "wal_autocheckpoint"]

set_option maxHeartbeats 1000000 in
/-- Claim C5: every pragma in the connection/engine configuration set classifies
as `Write` when it carries no argument and is unsupported (no category, so
`parse_inner` reports "unsupported statement") when it carries an argument
of either shape. -/
theorem c5_config_pragma_write_only_without_argument
    (qn : QualifiedName) (b : PragmaBody) (s : String)
    (h : qn.name ∈ configPragmas) :
    StmtKind.pragma_kind qn none = some StmtKind.Write ∧
    StmtKind.pragma_kind qn (some b) = none ∧
    Statement.parse_inner s (Cmd.Stmt (Stmt.Pragma qn (some b)))
      = .error "unsupported statement" := by
  obtain ⟨db, n⟩ := qn
  simp only [configPragmas, List.mem_cons, List.not_mem_nil, or_false] at h
  rcases h with rfl | rfl | rfl | rfl | rfl | rfl | rfl | rfl | rfl | rfl | rfl
    | rfl | rfl | rfl | rfl | rfl | rfl | rfl | rfl | rfl | rfl | rfl | rfl
    | rfl | rfl | rfl | rfl | rfl | rfl | rfl | rfl | rfl <;>
    exact ⟨rfl, rfl, rfl⟩

/-- Claim C5 witness: instantiated at `PRAGMA cache_size` / `PRAGMA
cache_size=10`. -/
theorem c5_witness :
    StmtKind.pragma_kind ⟨none, "cache_size"⟩ none = some StmtKind.Write ∧
    StmtKind.pragma_kind ⟨none, "cache_size"⟩ (some (PragmaBody.Equals "10")) = none ∧
    Statement.parse_inner "PRAGMA cache_size=10"
        (Cmd.Stmt (Stmt.Pragma ⟨none, "cache_size"⟩ (some (PragmaBody.Equals "10"))))
      = .error "unsupported statement" :=
  c5_config_pragma_write_only_without_argument ⟨none, "cache_size"⟩
    (PragmaBody.Equals "10") "PRAGMA cache_size=10" (by simp [configPragmas])

/-- Claim C7: for every `Statement` produced by `parse_inner` (the CREATE VIRTUAL
TABLE path included), `is_insert` implies `is_iud`, `is_iud` holds exactly
for Insert/Update/Delete commands, and `is_insert` holds exactly for
Insert; the empty statement has both flags false. -/
theorem c7_mutation_flag_invariants
    (s : String) (c : Cmd) (st : Statement)
    (h : Statement.parse_inner s c = .ok st) :
    (st.is_insert = true → st.is_iud = true) ∧
    (st.is_iud = true ↔
      c = Cmd.Stmt Stmt.Insert ∨ c = Cmd.Stmt Stmt.Update ∨ c = Cmd.Stmt Stmt.Delete) ∧
    (st.is_insert = true ↔ c = Cmd.Stmt Stmt.Insert) ∧
    Statement.empty.is_iud = false ∧ Statement.empty.is_insert = false := by
  rcases c with s1 | s1 | s1 <;> cases s1 <;>
    simp only [Statement.parse_inner, StmtKind.kind, is_cvt_cmd, is_iud_cmd,
      is_insert_cmd] at h <;>
    (try split at h) <;> (try split at h) <;>
    (try simp_all [Statement.empty]) <;>
    (try subst st) <;>
    simp_all [Statement.empty]

/-- Statement record that `parse_inner` produces for a plain INSERT command;
used by the witness of the mutation-flag invariants. -/
def insertStatement : Statement :=
  { stmt := Cmd.toString (Cmd.Stmt Stmt.Insert)
    kind := StmtKind.Write
    is_iud := true
    is_insert := true }

/-- Claim C7 witness: instantiated at an INSERT command. -/
theorem c7_witness :
    (insertStatement.is_insert = true → insertStatement.is_iud = true) ∧
    (insertStatement.is_iud = true ↔
      Cmd.Stmt Stmt.Insert = Cmd.Stmt Stmt.Insert ∨
      Cmd.Stmt Stmt.Insert = Cmd.Stmt Stmt.Update ∨
      Cmd.Stmt Stmt.Insert = Cmd.Stmt Stmt.Delete) ∧
    (insertStatement.is_insert = true ↔ Cmd.Stmt Stmt.Insert = Cmd.Stmt Stmt.Insert) ∧
    Statement.empty.is_iud = false ∧ Statement.empty.is_insert = false :=
  c7_mutation_flag_invariants "INSERT INTO t VALUES(1)" (Cmd.Stmt Stmt.Insert)
    insertStatement rfl

/-- Claim C3 counterexample: the claim "the `text` of a produced CREATE VIRTUAL
TABLE statement equals the original source substring of that command, not
the whole input text, for every input including multi-command inputs" is
false on the code: `Statement::parse` hands the WHOLE input `s` to
`parse_inner` as `original`, so on the two-command input below the CREATE
VIRTUAL TABLE statement's text is the entire input (the leading
`SELECT 1;` included), which differs from the command's own substring. -/
theorem c3_counterexample :
    Statement.parse "SELECT 1;CREATE VIRTUAL TABLE vt USING fts4(c)"
        [ParserItem.cmd (Cmd.Stmt Stmt.Select),
         ParserItem.cmd (Cmd.Stmt (Stmt.CreateVirtualTable ⟨none, "vt"⟩))]
      = [Except.ok { stmt := Cmd.toString (Cmd.Stmt Stmt.Select),
                     kind := StmtKind.Read, is_iud := false, is_insert := false },
         Except.ok { stmt := "SELECT 1;CREATE VIRTUAL TABLE vt USING fts4(c)",
                     kind := StmtKind.Write, is_iud := false, is_insert := false }] ∧
    "SELECT 1;CREATE VIRTUAL TABLE vt USING fts4(c)"
      ≠ "CREATE VIRTUAL TABLE vt USING fts4(c)" :=
  ⟨rfl, by decide⟩

/-- Claim C3 amended: for a (non-TEMP-qualified) CREATE VIRTUAL TABLE command the
produced statement's text is the entire original input string passed to
`parse` — which coincides with the command's own source text only when that
command is the whole input — and this is what appears, in place, in the
produced sequence. -/
theorem c3_amended_cvt_text_is_whole_input
    (original : String) (tbl : QualifiedName) (items : List ParserItem) (i : Nat)
    (htemp : is_temp tbl = false)
    (hi : items[i]? = some (ParserItem.cmd (Cmd.Stmt (Stmt.CreateVirtualTable tbl)))) :
    Statement.parse_inner original (Cmd.Stmt (Stmt.CreateVirtualTable tbl))
      = .ok { stmt := original, kind := StmtKind.Write,
              is_iud := false, is_insert := false } ∧
    (Statement.parse original items)[i]?
      = some (.ok { stmt := original, kind := StmtKind.Write,
                    is_iud := false, is_insert := false }) := by
  have h1 : Statement.parse_inner original (Cmd.Stmt (Stmt.CreateVirtualTable tbl))
      = .ok { stmt := original, kind := StmtKind.Write,
              is_iud := false, is_insert := false } := by
    simp [Statement.parse_inner, StmtKind.kind, htemp, is_cvt_cmd]
  refine ⟨h1, ?_⟩
  unfold Statement.parse
  rw [List.getElem?_map, hi]
  simp [h1]

/-- Claim C3 amended, witness: a single-command input, where the whole input is
the CREATE VIRTUAL TABLE command's text. -/
theorem c3_amended_witness :
    Statement.parse_inner "CREATE VIRTUAL TABLE vt USING fts4(c)"
        (Cmd.Stmt (Stmt.CreateVirtualTable ⟨none, "vt"⟩))
      = .ok { stmt := "CREATE VIRTUAL TABLE vt USING fts4(c)", kind := StmtKind.Write,
              is_iud := false, is_insert := false } ∧
    (Statement.parse "CREATE VIRTUAL TABLE vt USING fts4(c)"
        [ParserItem.cmd (Cmd.Stmt (Stmt.CreateVirtualTable ⟨none, "vt"⟩))])[0]?
      = some (.ok { stmt := "CREATE VIRTUAL TABLE vt USING fts4(c)",
                    kind := StmtKind.Write, is_iud := false, is_insert := false }) :=
  c3_amended_cvt_text_is_whole_input "CREATE VIRTUAL TABLE vt USING fts4(c)"
    ⟨none, "vt"⟩ [ParserItem.cmd (Cmd.Stmt (Stmt.CreateVirtualTable ⟨none, "vt"⟩))] 0
    rfl rfl

end QueryAnalysis
